import Mathlib

/-!
Verification of the deterministic calculation engine of
`app_circular_platform_mvp.py` (circular-plastics program model).

The Python engine works on IEEE floats; here every float is modelled as a
rational number (`ℚ`), so every formula of the source is embedded exactly,
with exact arithmetic.  The one operation of the engine that can raise at
run time — float division by zero in the pro-forma capex column — is
modelled by `pydiv`, which returns `none` exactly when Python raises
`ZeroDivisionError`; the pro-forma builder therefore returns an
`Option (List Row)`.  The payback sentinel `float("inf")` is modelled by a
dedicated constructor of the `Payback` type.
-/

set_option linter.unusedVariables false

namespace CircularPlatform

/-- `clamp` helper, source line 35: `min(max(float(x), lo), hi)`. -/
def clamp (x lo hi : ℚ) : ℚ := min (max x lo) hi

/-- The three traffic-light emojis returned by `traffic_light`
(source lines 42-47): `green` = 🟢, `yellow` = 🟡, `red` = 🔴. -/
inductive Light where
  | green
  | yellow
  | red
deriving DecidableEq

/-- `traffic_light(value, target, warn_band)`, source lines 42-47.  The
Python default for `warn_band` is `0.03`; every call site of the source
passes `0.05` explicitly.  Here the band is an explicit argument. -/
def traffic_light (value target warn_band : ℚ) : Light :=
  if target ≤ value then Light.green
  else if target - warn_band ≤ value then Light.yellow
  else Light.red

/-- The baseline operating assumptions (sidebar inputs, source lines
135-157), i.e. the spec's `AssumptionSet`.  `avg_wage_uplift` is omitted:
the engine never uses it. -/
structure Assumptions where
  sites : ℚ
  lbs_per_site_month : ℚ
  recovery_rate : ℚ
  yield_rate : ℚ
  downtime_rate : ℚ
  scrap_rate : ℚ
  sell_share : ℚ
  sell_price_lb : ℚ
  internal_value_lb : ℚ
  disposal_avoid_lb : ℚ
  carbon_value_lb : ℚ
  op_cost_site_month : ℚ
  capex_per_site : ℚ
  trainees_per_site_year : ℚ
  placement_rate : ℚ
deriving DecidableEq

/-- Payback months: either the finite quotient or the `float("inf")`
sentinel of source line 186. -/
inductive Payback where
  | infinity
  | months (m : ℚ)
deriving DecidableEq

/-- The monthly snapshot: every derived quantity of the core monthly
calculation (source lines 163-196).  `W` is the incoming pounds per month;
`R`, `Y`, `D`, `S` are the clamped rates, named as in the source. -/
structure Snapshot where
  W : ℚ
  R : ℚ
  Y : ℚ
  D : ℚ
  S : ℚ
  recovered : ℚ
  usable : ℚ
  finished : ℚ
  sold_lbs : ℚ
  internal_lbs : ℚ
  sell_rev : ℚ
  internal_val : ℚ
  disp_avoid : ℚ
  carbon_val : ℚ
  gross_value : ℚ
  op_cost : ℚ
  net_profit : ℚ
  capex_total : ℚ
  payback_mo : Payback
  trainees_total_year : ℚ
  placed_total_year : ℚ
deriving DecidableEq

/-- The Monthly Model: source lines 163-196, formula by formula. -/
def compute (a : Assumptions) : Snapshot :=
  let W := a.lbs_per_site_month * a.sites
  let R := clamp a.recovery_rate 0 1
  let Y := clamp a.yield_rate 0 1
  let D := clamp a.downtime_rate 0 1
  let S := clamp a.scrap_rate 0 1
  let recovered := W * R
  let usable := recovered * (1 - S)
  let finished := usable * Y * (1 - D)
  let sold_lbs := finished * clamp a.sell_share 0 1
  let internal_lbs := finished * (1 - clamp a.sell_share 0 1)
  let sell_rev := sold_lbs * a.sell_price_lb
  let internal_val := internal_lbs * a.internal_value_lb
  let disp_avoid := recovered * a.disposal_avoid_lb
  let carbon_val := recovered * a.carbon_value_lb
  let gross_value := sell_rev + internal_val + disp_avoid + carbon_val
  let op_cost := a.op_cost_site_month * a.sites
  let net_profit := gross_value - op_cost
  let capex_total := a.capex_per_site * a.sites
  let payback_mo :=
    if net_profit ≤ 0 then Payback.infinity
    else Payback.months (capex_total / net_profit)
  let trainees_total_year := a.trainees_per_site_year * a.sites
  let placed_total_year := trainees_total_year * a.placement_rate
  ⟨W, R, Y, D, S, recovered, usable, finished, sold_lbs, internal_lbs,
   sell_rev, internal_val, disp_avoid, carbon_val, gross_value, op_cost,
   net_profit, capex_total, payback_mo, trainees_total_year,
   placed_total_year⟩

/-- The default values of every sidebar input (source lines 135-157). -/
def defaults : Assumptions :=
  ⟨1, 80000, 90/100, 92/100, 8/100, 6/100, 50/100, 10, 12, 15/100, 6/100,
   18000, 120000, 80, 70/100⟩

/-- An all-zero assumption set: used to exercise the `recovered ≤ 0` and
`net_profit ≤ 0` branches on a concrete input. -/
def azero : Assumptions :=
  ⟨0, 0, 0, 0, 0, 0, 0, 0, 0, 0, 0, 0, 0, 0, 0⟩

-- Definitional projections of `compute`, used throughout the proofs.

theorem compute_W (a : Assumptions) :
    (compute a).W = a.lbs_per_site_month * a.sites := rfl

theorem compute_R (a : Assumptions) :
    (compute a).R = clamp a.recovery_rate 0 1 := rfl

theorem compute_recovered (a : Assumptions) :
    (compute a).recovered = (compute a).W * clamp a.recovery_rate 0 1 := rfl

theorem compute_usable (a : Assumptions) :
    (compute a).usable = (compute a).recovered * (1 - clamp a.scrap_rate 0 1) := rfl

theorem compute_finished (a : Assumptions) :
    (compute a).finished =
      (compute a).usable * clamp a.yield_rate 0 1 * (1 - clamp a.downtime_rate 0 1) := rfl

theorem compute_net_profit (a : Assumptions) :
    (compute a).net_profit = (compute a).gross_value - (compute a).op_cost := rfl

theorem compute_payback (a : Assumptions) :
    (compute a).payback_mo =
      if (compute a).net_profit ≤ 0 then Payback.infinity
      else Payback.months ((compute a).capex_total / (compute a).net_profit) := rfl

theorem compute_trainees (a : Assumptions) :
    (compute a).trainees_total_year = a.trainees_per_site_year * a.sites := rfl

theorem compute_placed (a : Assumptions) :
    (compute a).placed_total_year = (compute a).trainees_total_year * a.placement_rate := rfl

-- Elementary facts about `clamp`.

theorem clamp01_nonneg (x : ℚ) : 0 ≤ clamp x 0 1 :=
  le_min (le_max_right x 0) zero_le_one

theorem clamp01_le_one (x : ℚ) : clamp x 0 1 ≤ 1 :=
  min_le_right _ _

theorem clamp01_idem (x : ℚ) : clamp (clamp x 0 1) 0 1 = clamp x 0 1 := by
  have h0 : 0 ≤ clamp x 0 1 := clamp01_nonneg x
  have h1 : clamp x 0 1 ≤ 1 := clamp01_le_one x
  unfold clamp at h0 h1 ⊢
  rw [max_eq_left h0, min_eq_left h1]

/-- `value_per_recovered_lb` (source line 318):
`0.0 if recovered <= 0 else gross_value / recovered`. -/
def value_per_recovered_lb (a : Assumptions) : ℚ :=
  if (compute a).recovered ≤ 0 then 0
  else (compute a).gross_value / (compute a).recovered

/-- Modelled from the spec (§3 invariant): an assumption set whose six
rate-like fields have all been clamped into `[0,1]`, as claim C4 says
happens before any use.  Compared against `compute`, which clamps only
five of them. -/
def clampAllRates (a : Assumptions) : Assumptions :=
  { a with
    recovery_rate := clamp a.recovery_rate 0 1
    yield_rate := clamp a.yield_rate 0 1
    downtime_rate := clamp a.downtime_rate 0 1
    scrap_rate := clamp a.scrap_rate 0 1
    sell_share := clamp a.sell_share 0 1
    placement_rate := clamp a.placement_rate 0 1 }

/-- The five rate fields the source actually clamps (lines 164-167, 173-174),
leaving `placement_rate` untouched (line 196). -/
def clampUsedRates (a : Assumptions) : Assumptions :=
  { a with
    recovery_rate := clamp a.recovery_rate 0 1
    yield_rate := clamp a.yield_rate 0 1
    downtime_rate := clamp a.downtime_rate 0 1
    scrap_rate := clamp a.scrap_rate 0 1
    sell_share := clamp a.sell_share 0 1 }

/-- The defaults with an out-of-range placement rate of 2 (the sidebar
bounds it to `[0,1]`, the engine itself does not). -/
def aOverPlacement : Assumptions :=
  ⟨1, 80000, 90/100, 92/100, 8/100, 6/100, 50/100, 10, 12, 15/100, 6/100,
   18000, 120000, 80, 2⟩

/-- C1: for every assumption set whose four process rates lie in `[0,1]`
and with nonnegative throughput and site count, the monthly snapshot
satisfies `0 ≤ finished ≤ usable ≤ recovered ≤ incoming`. -/
theorem C1_flow_chain (a : Assumptions)
    (hrec0 : 0 ≤ a.recovery_rate) (hrec1 : a.recovery_rate ≤ 1)
    (hyld0 : 0 ≤ a.yield_rate) (hyld1 : a.yield_rate ≤ 1)
    (hdt0 : 0 ≤ a.downtime_rate) (hdt1 : a.downtime_rate ≤ 1)
    (hscr0 : 0 ≤ a.scrap_rate) (hscr1 : a.scrap_rate ≤ 1)
    (hlbs : 0 ≤ a.lbs_per_site_month) (hsites : 0 ≤ a.sites) :
    0 ≤ (compute a).finished ∧
    (compute a).finished ≤ (compute a).usable ∧
    (compute a).usable ≤ (compute a).recovered ∧
    (compute a).recovered ≤ (compute a).W := by
  have hW : 0 ≤ (compute a).W := by
    rw [compute_W]; exact mul_nonneg hlbs hsites
  have hrec : 0 ≤ (compute a).recovered := by
    rw [compute_recovered]; exact mul_nonneg hW (clamp01_nonneg _)
  have husable : 0 ≤ (compute a).usable := by
    rw [compute_usable]; exact mul_nonneg hrec (sub_nonneg.mpr (clamp01_le_one _))
  have hfin0 : 0 ≤ (compute a).finished := by
    rw [compute_finished]
    exact mul_nonneg (mul_nonneg husable (clamp01_nonneg _))
      (sub_nonneg.mpr (clamp01_le_one _))
  refine ⟨hfin0, ?_, ?_, ?_⟩
  · rw [compute_finished]
    calc (compute a).usable * clamp a.yield_rate 0 1 * (1 - clamp a.downtime_rate 0 1)
        ≤ (compute a).usable * clamp a.yield_rate 0 1 :=
          mul_le_of_le_one_right (mul_nonneg husable (clamp01_nonneg _))
            (sub_le_self 1 (clamp01_nonneg _))
      _ ≤ (compute a).usable :=
          mul_le_of_le_one_right husable (clamp01_le_one _)
  · rw [compute_usable]
    exact mul_le_of_le_one_right hrec (sub_le_self 1 (clamp01_nonneg _))
  · rw [compute_recovered]
    exact mul_le_of_le_one_right hW (clamp01_le_one _)

theorem C1_witness :
    0 ≤ (compute defaults).finished ∧
    (compute defaults).finished ≤ (compute defaults).usable ∧
    (compute defaults).usable ≤ (compute defaults).recovered ∧
    (compute defaults).recovered ≤ (compute defaults).W :=
  C1_flow_chain defaults (by norm_num [defaults]) (by norm_num [defaults])
    (by norm_num [defaults]) (by norm_num [defaults]) (by norm_num [defaults])
    (by norm_num [defaults]) (by norm_num [defaults]) (by norm_num [defaults])
    (by norm_num [defaults]) (by norm_num [defaults])

/-- C2: the payback column is `capexTotal / netProfit` when `netProfit > 0`
and the positive-infinity sentinel whenever `netProfit ≤ 0` — in
particular whenever `opCost ≥ grossValue`.  The sentinel is a dedicated
constructor, so it is never a negative number, a NaN or an exception. -/
theorem C2_payback_sentinel (a : Assumptions) :
    (0 < (compute a).net_profit →
      (compute a).payback_mo =
        Payback.months ((compute a).capex_total / (compute a).net_profit)) ∧
    ((compute a).net_profit ≤ 0 → (compute a).payback_mo = Payback.infinity) ∧
    ((compute a).gross_value ≤ (compute a).op_cost →
      (compute a).payback_mo = Payback.infinity) := by
  refine ⟨?_, ?_, ?_⟩
  · intro h
    rw [compute_payback, if_neg (not_le.mpr h)]
  · intro h
    rw [compute_payback, if_pos h]
  · intro h
    have hn : (compute a).net_profit ≤ 0 := by
      rw [compute_net_profit]; exact sub_nonpos.mpr h
    rw [compute_payback, if_pos hn]

theorem C2_witness :
    (compute azero).payback_mo = Payback.infinity ∧
    (compute defaults).payback_mo =
      Payback.months ((compute defaults).capex_total / (compute defaults).net_profit) :=
  ⟨(C2_payback_sentinel azero).2.1
      (by norm_num [compute, clamp, azero, min_def, max_def]),
   (C2_payback_sentinel defaults).1
      (by norm_num [compute, clamp, defaults, min_def, max_def])⟩

/-- C3 counterexample: at the default assumptions the finished pounds are
`67680 × 0.92 × 0.92` exactly as the multiplication order says, but that
product is `57284.352`, strictly below `57288`, so it is not the
`57,288.58...` the claim asserts. -/
theorem C3_counterexample :
    (compute defaults).finished = 67680 * (92/100) * (92/100) ∧
    (compute defaults).finished < 57288 := by
  constructor <;> norm_num [compute, clamp, defaults, min_def, max_def]

/-- C3 (amended): with the default assumptions the monthly model yields
`recovered = 72000`, `usable = 67680`, and
`finished = usable × yieldRate × (1 − downtimeRate) = 67680 × 0.92 × 0.92
= 57284.352 = 7160544/125`. -/
theorem C3_default_flow :
    (compute defaults).recovered = 72000 ∧
    (compute defaults).usable = 67680 ∧
    (compute defaults).finished =
      (compute defaults).usable * clamp defaults.yield_rate 0 1 *
        (1 - clamp defaults.downtime_rate 0 1) ∧
    (compute defaults).finished = 7160544/125 := by
  refine ⟨?_, ?_, compute_finished defaults, ?_⟩ <;>
    norm_num [compute, clamp, defaults, min_def, max_def]

/-- C4 counterexample: with `placement_rate = 2` the engine reports 160
jobs placed from 80 trainees, while an engine that clamped every rate
field before use would report 80; so `compute` does not clamp
`placement_rate`, and pre-clamping all rate fields changes the output. -/
theorem C4_counterexample :
    (compute aOverPlacement).placed_total_year = 160 ∧
    (compute (clampAllRates aOverPlacement)).placed_total_year = 80 ∧
    compute aOverPlacement ≠ compute (clampAllRates aOverPlacement) := by
  have h1 : (compute aOverPlacement).placed_total_year = 160 := by
    norm_num [compute, clamp, aOverPlacement, min_def, max_def]
  have h2 : (compute (clampAllRates aOverPlacement)).placed_total_year = 80 := by
    norm_num [compute, clamp, clampAllRates, aOverPlacement, min_def, max_def]
  refine ⟨h1, h2, fun h => ?_⟩
  have := congrArg Snapshot.placed_total_year h
  rw [h1, h2] at this
  exact absurd this (by norm_num)

/-- C4 (amended): `recoveryRate`, `yieldRate`, `downtimeRate`, `scrapRate`
and `sellShare` are clamped into `[0,1]` before any derived quantity uses
them — pre-clamping those five fields leaves every output unchanged — but
`placementRate` is used exactly as supplied, so
`jobsPlacedPerYear = traineesPerYear × placementRate` with the raw value. -/
theorem C4_clamp_discipline (a : Assumptions) :
    compute (clampUsedRates a) = compute a ∧
    (compute a).placed_total_year =
      a.trainees_per_site_year * a.sites * a.placement_rate := by
  constructor
  · simp [compute, clampUsedRates, clamp01_idem]
  · rfl

/-- C7: `valuePerRecoveredLb` is `grossValue / recovered` when
`recovered > 0` and defaults to `0`, without failing, whenever
`recovered ≤ 0`. -/
theorem C7_value_per_recovered (a : Assumptions) :
    (0 < (compute a).recovered →
      value_per_recovered_lb a = (compute a).gross_value / (compute a).recovered) ∧
    ((compute a).recovered ≤ 0 → value_per_recovered_lb a = 0) := by
  constructor
  · intro h
    rw [value_per_recovered_lb, if_neg (not_le.mpr h)]
  · intro h
    rw [value_per_recovered_lb, if_pos h]

theorem C7_witness :
    value_per_recovered_lb defaults =
      (compute defaults).gross_value / (compute defaults).recovered ∧
    value_per_recovered_lb azero = 0 :=
  ⟨(C7_value_per_recovered defaults).1
      (by norm_num [compute, clamp, defaults, min_def, max_def]),
   (C7_value_per_recovered azero).2
      (by norm_num [compute, clamp, azero, min_def, max_def])⟩

/-- C9: with the warn band `0.05` that every call site of the source
passes, the traffic light is green iff `value ≥ target`, yellow iff
`target − 0.05 ≤ value < target`, and red iff `value < target − 0.05`. -/
theorem C9_traffic_light (value target : ℚ) :
    (traffic_light value target (5/100) = Light.green ↔ target ≤ value) ∧
    (traffic_light value target (5/100) = Light.yellow ↔
      target - 5/100 ≤ value ∧ value < target) ∧
    (traffic_light value target (5/100) = Light.red ↔ value < target - 5/100) := by
  unfold traffic_light
  by_cases h1 : target ≤ value
  · rw [if_pos h1]
    have h2 : ¬ value < target := not_lt.mpr h1
    have h3 : ¬ value < target - 5/100 := by
      push_neg
      linarith
    exact ⟨by simp [h1], by simp [h2], by simp [h3]⟩
  · rw [if_neg h1]
    have hlt : value < target := not_le.mp h1
    by_cases h2 : target - 5/100 ≤ value
    · rw [if_pos h2]
      have h3 : ¬ value < target - 5/100 := not_lt.mpr h2
      exact ⟨by simp [h1], by simp [h2, hlt], by simp [h3]⟩
    · rw [if_neg h2]
      have h3 : value < target - 5/100 := not_le.mp h2
      exact ⟨by simp [h1], by simp [h2], by simp [h3]⟩

/-- Python float division as used on source line 342: raises
`ZeroDivisionError` when the denominator is zero, modelled as `none`. -/
def pydiv (x y : ℚ) : Option ℚ := if y = 0 then none else some (x / y)

/-- The running state of the pro forma loop (source lines 324-327):
sites, pounds per site per month, value per recovered pound, and annual
operating cost per site. -/
structure PFState where
  sites_y : ℚ
  lbs_site_y : ℚ
  vpr : ℚ
  op_cost_site_y : ℚ
deriving DecidableEq

/-- One pro forma row (source lines 347-357). -/
structure Row where
  year : ℕ
  sites : ℚ
  annual_incoming : ℚ
  annual_recovered : ℚ
  gross : ℚ
  op_cost : ℚ
  net : ℚ
  capex_new : ℚ
  workforce_reinvest : ℚ
deriving DecidableEq

/-- The compounding step of source lines 331-334: every running state
variable is multiplied by one plus its growth rate. -/
def grow (gs gl gp gc : ℚ) (st : PFState) : PFState :=
  ⟨st.sites_y * (1 + gs), st.lbs_site_y * (1 + gl),
   st.vpr * (1 + gp), st.op_cost_site_y * (1 + gc)⟩

/-- Source lines 330-334: the growth step is applied only when `y > 1`. -/
def growIf (gs gl gp gc : ℚ) (y : ℕ) (st : PFState) : PFState :=
  if 1 < y then grow gs gl gp gc st else st

/-- The body of one loop iteration (source lines 336-357), Python-faithful:
for `y ≠ 1` the capex column divides by `1 + growth_sites` (line 342),
which raises — here returns `none` — when that sum is zero. -/
def mkRowChecked (R capex reinvest gs : ℚ) (y : ℕ) (st : PFState) : Option Row :=
  let W_y := st.sites_y * st.lbs_site_y * 12
  let recovered_y := W_y * R
  let gross_y := recovered_y * st.vpr
  let op_y := st.sites_y * st.op_cost_site_y
  let net_y := gross_y - op_y
  let capexRaw :=
    if y = 1 then some (st.sites_y * capex)
    else (pydiv st.sites_y (1 + gs)).map fun q => (st.sites_y - q) * capex
  capexRaw.map fun c =>
    ⟨y, st.sites_y, W_y, recovered_y, gross_y, op_y, net_y, max c 0,
     max net_y 0 * reinvest⟩

/-- The same row with total field division; agrees with `mkRowChecked`
whenever the latter succeeds. -/
def mkRow (R capex reinvest gs : ℚ) (y : ℕ) (st : PFState) : Row :=
  let W_y := st.sites_y * st.lbs_site_y * 12
  let recovered_y := W_y * R
  let gross_y := recovered_y * st.vpr
  let op_y := st.sites_y * st.op_cost_site_y
  let net_y := gross_y - op_y
  let capexRaw :=
    if y = 1 then st.sites_y * capex
    else (st.sites_y - st.sites_y / (1 + gs)) * capex
  ⟨y, st.sites_y, W_y, recovered_y, gross_y, op_y, net_y, max capexRaw 0,
   max net_y 0 * reinvest⟩

/-- The pro forma loop of source lines 329-357, fuel-indexed by the number
of years still to produce; `y` is the 1-based year counter. -/
def proFormaAux (gs gl gp gc R capex reinvest : ℚ) :
    ℕ → ℕ → PFState → Option (List Row)
  | 0, _, _ => some []
  | fuel + 1, y, st =>
    match mkRowChecked R capex reinvest gs y (growIf gs gl gp gc y st) with
    | none => none
    | some r =>
      match proFormaAux gs gl gp gc R capex reinvest fuel (y + 1)
          (growIf gs gl gp gc y st) with
      | none => none
      | some rs => some (r :: rs)

/-- Seeding of the running state (source lines 318-327). -/
def initState (a : Assumptions) : PFState :=
  ⟨a.sites, a.lbs_per_site_month, value_per_recovered_lb a,
   a.op_cost_site_month * 12⟩

/-- The Multi-Year Projector (source lines 305-357). -/
def proForma (a : Assumptions) (years : ℕ) (gs gl gp gc reinvest : ℚ) :
    Option (List Row) :=
  proFormaAux gs gl gp gc (compute a).R a.capex_per_site reinvest years 1
    (initState a)

/-- Pandas `cumsum` (source lines 361-362) as a running-total recursion. -/
def cumsumFrom (acc : ℚ) : List ℚ → List ℚ
  | [] => []
  | x :: xs => (acc + x) :: cumsumFrom (acc + x) xs

/-- The cumulative columns added on source lines 361-362. -/
def cumsum (xs : List ℚ) : List ℚ := cumsumFrom 0 xs

/-- A row all of whose numeric columns are zero: the rows the projector
produces on the all-zero assumption set. -/
def zeroRow (y : ℕ) : Row := ⟨y, 0, 0, 0, 0, 0, 0, 0, 0⟩

-- Definitional projections of `mkRow`.

theorem mkRow_sites (R c rv gs : ℚ) (y : ℕ) (st : PFState) :
    (mkRow R c rv gs y st).sites = st.sites_y := rfl

theorem mkRow_recovered_of_incoming (R c rv gs : ℚ) (y : ℕ) (st : PFState) :
    (mkRow R c rv gs y st).annual_recovered =
      (mkRow R c rv gs y st).annual_incoming * R := rfl

theorem mkRow_capex_one (R c rv gs : ℚ) (st : PFState) :
    (mkRow R c rv gs 1 st).capex_new = max (st.sites_y * c) 0 := rfl

theorem mkRow_capex_ge2 (R c rv gs : ℚ) (y : ℕ) (st : PFState) (hy : y ≠ 1) :
    (mkRow R c rv gs y st).capex_new =
      max ((st.sites_y - st.sites_y / (1 + gs)) * c) 0 := by
  simp [mkRow, hy]

-- How `mkRowChecked` relates to `mkRow`.

theorem mkRowChecked_one (R c rv gs : ℚ) (st : PFState) :
    mkRowChecked R c rv gs 1 st = some (mkRow R c rv gs 1 st) := by
  simp [mkRowChecked, mkRow]

theorem mkRowChecked_eq_some (R c rv gs : ℚ) (hgs : (1:ℚ) + gs ≠ 0)
    (y : ℕ) (st : PFState) :
    mkRowChecked R c rv gs y st = some (mkRow R c rv gs y st) := by
  by_cases hy : y = 1
  · subst hy; exact mkRowChecked_one R c rv gs st
  · simp [mkRowChecked, mkRow, pydiv, hgs, hy]

theorem mkRowChecked_none (R c rv gs : ℚ) (hgs : (1:ℚ) + gs = 0)
    (y : ℕ) (hy : y ≠ 1) (st : PFState) :
    mkRowChecked R c rv gs y st = none := by
  simp [mkRowChecked, pydiv, hgs, hy]

/-- A successful run produces exactly `fuel` rows. -/
theorem proFormaAux_length (gs gl gp gc R c rv : ℚ) :
    ∀ (fuel y : ℕ) (st : PFState) (rows : List Row),
      proFormaAux gs gl gp gc R c rv fuel y st = some rows →
      rows.length = fuel := by
  intro fuel
  induction fuel with
  | zero =>
    intro y st rows h
    simp only [proFormaAux, Option.some.injEq] at h
    subst h
    rfl
  | succ n ih =>
    intro y st rows h
    simp only [proFormaAux] at h
    cases hr : mkRowChecked R c rv gs y (growIf gs gl gp gc y st) with
    | none => rw [hr] at h; simp at h
    | some r =>
      rw [hr] at h
      cases ha : proFormaAux gs gl gp gc R c rv n (y + 1) (growIf gs gl gp gc y st) with
      | none => rw [ha] at h; simp at h
      | some rs =>
        rw [ha] at h
        simp only [Option.some.injEq] at h
        subst h
        simp [ih (y + 1) (growIf gs gl gp gc y st) rs ha]

/-- `growPow n` applies the compounding step `n` times, innermost first:
`growPow (n+1) st = growPow n (grow st)` — the order in which the loop of
source lines 329-334 threads its running state. -/
def growPow (gs gl gp gc : ℚ) : ℕ → PFState → PFState
  | 0, st => st
  | n + 1, st => growPow gs gl gp gc n (grow gs gl gp gc st)

/-- Characterization of the rows produced from a loop entered at year
`y ≥ 2`: the `i`-th row is the total row builder applied to the state
grown `i + 1` more times (the growth step runs before the row is built). -/
theorem proFormaAux_get_ge2 (gs gl gp gc R c rv : ℚ) (hgs : (1:ℚ) + gs ≠ 0) :
    ∀ (fuel y : ℕ) (st : PFState) (rows : List Row), 2 ≤ y →
      proFormaAux gs gl gp gc R c rv fuel y st = some rows →
      ∀ i (hi : i < rows.length),
        rows.get ⟨i, hi⟩ =
          mkRow R c rv gs (y + i) (growPow gs gl gp gc (i + 1) st) := by
  intro fuel
  induction fuel with
  | zero =>
    intro y st rows hy h
    simp only [proFormaAux, Option.some.injEq] at h
    subst h
    intro i hi
    simp at hi
  | succ n ih =>
    intro y st rows hy h
    simp only [proFormaAux] at h
    have hgrow : growIf gs gl gp gc y st = grow gs gl gp gc st := by
      rw [growIf, if_pos (by omega : 1 < y)]
    rw [hgrow] at h
    cases ha : proFormaAux gs gl gp gc R c rv n (y + 1) (grow gs gl gp gc st) with
    | none =>
      rw [mkRowChecked_eq_some R c rv gs hgs y (grow gs gl gp gc st), ha] at h
      simp at h
    | some rs =>
      rw [mkRowChecked_eq_some R c rv gs hgs y (grow gs gl gp gc st), ha] at h
      simp only [Option.some.injEq] at h
      subst h
      intro i hi
      cases i with
      | zero =>
        show mkRow R c rv gs y (grow gs gl gp gc st) =
          mkRow R c rv gs (y + 0) (growPow gs gl gp gc (0 + 1) st)
        norm_num [growPow]
      | succ j =>
        have hj : j < rs.length := by simpa using hi
        have hrec := ih (y + 1) (grow gs gl gp gc st) rs (by omega) ha j hj
        show rs.get ⟨j, hj⟩ =
          mkRow R c rv gs (y + (j + 1)) (growPow gs gl gp gc (j + 1 + 1) st)
        rw [hrec]
        have harg : y + 1 + j = y + (j + 1) := by omega
        have hiter :
            growPow gs gl gp gc (j + 1) (grow gs gl gp gc st) =
              growPow gs gl gp gc (j + 1 + 1) st := rfl
        rw [harg, hiter]

/-- Characterization of a successful projector run: the `i`-th row (year
`i + 1`) is the total row builder applied to the seeded state grown `i`
times — year 1 uses the unmodified baseline-derived state, and every later
year grows the state once more before its row is built. -/
theorem proForma_get (a : Assumptions) (years : ℕ) (gs gl gp gc rv : ℚ)
    (rows : List Row) (h : proForma a years gs gl gp gc rv = some rows) :
    ∀ i (hi : i < rows.length),
      rows.get ⟨i, hi⟩ =
        mkRow (compute a).R a.capex_per_site rv gs (i + 1)
          (growPow gs gl gp gc i (initState a)) := by
  cases years with
  | zero =>
    unfold proForma at h
    simp only [proFormaAux, Option.some.injEq] at h
    subst h
    intro i hi
    simp at hi
  | succ n =>
    unfold proForma at h
    simp only [proFormaAux] at h
    have hgrow : growIf gs gl gp gc 1 (initState a) = initState a := by
      rw [growIf, if_neg (by omega : ¬ 1 < 1)]
    rw [hgrow, mkRowChecked_one] at h
    cases ha : proFormaAux gs gl gp gc (compute a).R a.capex_per_site rv n 2
        (initState a) with
    | none =>
      rw [ha] at h
      simp at h
    | some rs =>
      rw [ha] at h
      simp only [Option.some.injEq] at h
      subst h
      intro i hi
      cases i with
      | zero =>
        show mkRow (compute a).R a.capex_per_site rv gs 1 (initState a) =
          mkRow (compute a).R a.capex_per_site rv gs (0 + 1)
            (growPow gs gl gp gc 0 (initState a))
        norm_num [growPow]
      | succ j =>
        have hj : j < rs.length := by simpa using hi
        by_cases hgs : (1:ℚ) + gs = 0
        · exfalso
          cases n with
          | zero =>
            simp only [proFormaAux, Option.some.injEq] at ha
            rw [← ha] at hj
            simp at hj
          | succ m =>
            simp only [proFormaAux] at ha
            rw [mkRowChecked_none (compute a).R a.capex_per_site rv gs hgs 2
              (by omega) (growIf gs gl gp gc 2 (initState a))] at ha
            simp at ha
        · have hrec := proFormaAux_get_ge2 gs gl gp gc (compute a).R
            a.capex_per_site rv hgs n 2 (initState a) rs (le_refl 2) ha j hj
          show rs.get ⟨j, hj⟩ =
            mkRow (compute a).R a.capex_per_site rv gs (j + 1 + 1)
              (growPow gs gl gp gc (j + 1) (initState a))
          rw [hrec]
          have harg : 2 + j = j + 1 + 1 := by omega
          have hiter :
              growPow gs gl gp gc (j + 1) (initState a) =
                growPow gs gl gp gc j (grow gs gl gp gc (initState a)) := rfl
          rw [harg, hiter]

/-- With zero site growth the compounding step never changes the site
count. -/
theorem growPow_sites_zero_growth (gl gp gc : ℚ) :
    ∀ (i : ℕ) (st : PFState), (growPow 0 gl gp gc i st).sites_y = st.sites_y := by
  intro i
  induction i with
  | zero => intro st; rfl
  | succ j ih =>
    intro st
    show (growPow 0 gl gp gc j (grow 0 gl gp gc st)).sites_y = st.sites_y
    rw [ih (grow 0 gl gp gc st)]
    show st.sites_y * (1 + 0) = st.sites_y
    norm_num

/-- A running sum has one entry per input element. -/
theorem cumsumFrom_length :
    ∀ (xs : List ℚ) (acc : ℚ), (cumsumFrom acc xs).length = xs.length := by
  intro xs
  induction xs with
  | nil => intro acc; rfl
  | cons x xs ih =>
    intro acc
    show (cumsumFrom (acc + x) xs).length + 1 = xs.length + 1
    rw [ih (acc + x)]

/-- The cumulative column has exactly one entry per row. -/
theorem cumsum_length (xs : List ℚ) : (cumsum xs).length = xs.length :=
  cumsumFrom_length xs 0

/-- Each entry of a running sum started at `acc` is `acc` plus the sum of
the first `i + 1` elements. -/
theorem cumsumFrom_get :
    ∀ (xs : List ℚ) (acc : ℚ) (i : ℕ) (hi : i < (cumsumFrom acc xs).length),
      (cumsumFrom acc xs).get ⟨i, hi⟩ = acc + (xs.take (i + 1)).sum := by
  intro xs
  induction xs with
  | nil =>
    intro acc i hi
    simp [cumsumFrom] at hi
  | cons x xs ih =>
    intro acc i hi
    cases i with
    | zero =>
      show acc + x = acc + ((x :: xs).take (0 + 1)).sum
      simp
    | succ j =>
      have hj : j < (cumsumFrom (acc + x) xs).length := by
        simpa [cumsumFrom] using hi
      show (cumsumFrom (acc + x) xs).get ⟨j, hj⟩ =
        acc + ((x :: xs).take (j + 1 + 1)).sum
      rw [ih (acc + x) j hj]
      simp [List.take_succ_cons, add_assoc]

/-- Each entry of the cumulative column is the sum of the per-year values
up to and including that row. -/
theorem cumsum_get (xs : List ℚ) (i : ℕ) (hi : i < (cumsum xs).length) :
    (cumsum xs).get ⟨i, hi⟩ = (xs.take (i + 1)).sum := by
  have h := cumsumFrom_get xs 0 i hi
  simpa using h

/-- Prefix sums of a list of nonnegative entries grow with the prefix
length. -/
theorem sum_take_mono :
    ∀ (xs : List ℚ), (∀ x ∈ xs, 0 ≤ x) →
      ∀ i j, i ≤ j → (xs.take i).sum ≤ (xs.take j).sum := by
  intro xs
  induction xs with
  | nil =>
    intro _ i j _
    simp
  | cons x xs ih =>
    intro hnn i j hij
    cases i with
    | zero =>
      simp only [List.take_zero, List.sum_nil]
      exact List.sum_nonneg fun y hy => hnn y (List.take_subset j (x :: xs) hy)
    | succ i2 =>
      cases j with
      | zero => exact absurd hij (by omega)
      | succ j2 =>
        simp only [List.take_succ_cons, List.sum_cons]
        have hx : ∀ y ∈ xs, 0 ≤ y := fun y hy => hnn y (List.mem_cons_of_mem x hy)
        exact add_le_add_left (ih hx i2 j2 (by omega)) x

/-- A concrete successful projector run: on the all-zero assumption set
with zero growth rates, three years of all-zero rows. -/
theorem proForma_azero :
    proForma azero 3 0 0 0 0 0 = some [zeroRow 1, zeroRow 2, zeroRow 3] := by
  norm_num [proForma, proFormaAux, growIf, grow, mkRowChecked, pydiv, initState,
    value_per_recovered_lb, compute, clamp, azero, zeroRow, min_def, max_def]

/-- C5: in every successful projector run, row `i` (year `i + 1`) is the
row builder applied to the seeded state grown `i` times — so year 1 is
computed from the unmodified baseline-derived state, and every later year
multiplies each running state variable by one plus its growth rate before
its row is computed — and every row satisfies
`annualRecovered = annualIncoming × recoveryRate` with the one clamped
recovery rate of the baseline, held constant (never compounded). -/
theorem C5_projection (a : Assumptions) (years : ℕ) (gs gl gp gc rv : ℚ)
    (rows : List Row) (h : proForma a years gs gl gp gc rv = some rows) :
    (∀ i (hi : i < rows.length),
      rows.get ⟨i, hi⟩ =
        mkRow (compute a).R a.capex_per_site rv gs (i + 1)
          (growPow gs gl gp gc i (initState a))) ∧
    ∀ r ∈ rows, r.annual_recovered = r.annual_incoming * (compute a).R := by
  refine ⟨proForma_get a years gs gl gp gc rv rows h, ?_⟩
  intro r hr
  obtain ⟨⟨i, hi⟩, rfl⟩ := List.mem_iff_get.mp hr
  rw [proForma_get a years gs gl gp gc rv rows h i hi]
  exact mkRow_recovered_of_incoming _ _ _ _ _ _

theorem C5_witness :
    [zeroRow 1, zeroRow 2, zeroRow 3].get ⟨0, by norm_num⟩ =
      mkRow (compute azero).R azero.capex_per_site 0 0 1
        (growPow 0 0 0 0 0 (initState azero)) :=
  (C5_projection azero 3 0 0 0 0 0 [zeroRow 1, zeroRow 2, zeroRow 3]
    proForma_azero).1 0 (by norm_num)

/-- C6: in every successful projector run with nonnegative baseline sites
and capex-per-site, the year-1 row charges capex on all sites
(`sites × capexPerSite`); every later row charges
`(sites − sites / (1 + growthSites)) × capexPerSite` floored at 0; and
with zero site growth the site count equals the baseline in every row and
the capex column is 0 from year 2 on. -/
theorem C6_capex (a : Assumptions) (years : ℕ) (gs gl gp gc rv : ℚ)
    (rows : List Row) (h : proForma a years gs gl gp gc rv = some rows)
    (hsites : 0 ≤ a.sites) (hcapex : 0 ≤ a.capex_per_site) :
    (∀ h0 : 0 < rows.length,
      (rows.get ⟨0, h0⟩).capex_new = (rows.get ⟨0, h0⟩).sites * a.capex_per_site) ∧
    (∀ i (hi : i < rows.length), 1 ≤ i →
      (rows.get ⟨i, hi⟩).capex_new =
        max (((rows.get ⟨i, hi⟩).sites - (rows.get ⟨i, hi⟩).sites / (1 + gs)) *
          a.capex_per_site) 0) ∧
    (gs = 0 →
      (∀ i (hi : i < rows.length), (rows.get ⟨i, hi⟩).sites = a.sites) ∧
      (∀ i (hi : i < rows.length), 1 ≤ i → (rows.get ⟨i, hi⟩).capex_new = 0)) := by
  have hget := proForma_get a years gs gl gp gc rv rows h
  refine ⟨?_, ?_, ?_⟩
  · intro h0
    rw [hget 0 h0]
    simp only [Nat.zero_add, growPow]
    rw [mkRow_capex_one, mkRow_sites]
    exact max_eq_left (mul_nonneg hsites hcapex)
  · intro i hi h1
    rw [hget i hi,
      mkRow_capex_ge2 (compute a).R a.capex_per_site rv gs (i + 1)
        (growPow gs gl gp gc i (initState a)) (by omega),
      mkRow_sites]
  · intro hgs0
    subst hgs0
    constructor
    · intro i hi
      rw [hget i hi, mkRow_sites, growPow_sites_zero_growth]
      rfl
    · intro i hi h1
      rw [hget i hi,
        mkRow_capex_ge2 (compute a).R a.capex_per_site rv 0 (i + 1)
          (growPow 0 gl gp gc i (initState a)) (by omega)]
      norm_num

theorem C6_witness :
    ([zeroRow 1, zeroRow 2, zeroRow 3].get ⟨0, by norm_num⟩).capex_new =
      ([zeroRow 1, zeroRow 2, zeroRow 3].get ⟨0, by norm_num⟩).sites *
        azero.capex_per_site :=
  (C6_capex azero 3 0 0 0 0 0 [zeroRow 1, zeroRow 2, zeroRow 3] proForma_azero
    (le_refl 0) (le_refl 0)).1 (by norm_num)

/-- C8: for every projection produced by the Multi-Year Projector, the
cumulative columns of source lines 361-362 (pandas `cumsum` over the
`Net proceeds` and `Workforce reinvest` columns, modelled by `cumsum`)
satisfy the claim: each column has one entry per row; in each row `i` the
cumulative value equals the sum of the per-year values of rows `0..i`
(`take (i + 1)` of the per-year column); and each cumulative column is
monotonically non-decreasing whenever every per-year value of its
counterpart is non-negative. -/
theorem C8_cumulative (a : Assumptions) (years : ℕ) (gs gl gp gc rv : ℚ)
    (rows : List Row) (h : proForma a years gs gl gp gc rv = some rows) :
    (cumsum (rows.map Row.net)).length = rows.length ∧
    (cumsum (rows.map Row.workforce_reinvest)).length = rows.length ∧
    (∀ i (hi : i < (cumsum (rows.map Row.net)).length),
      (cumsum (rows.map Row.net)).get ⟨i, hi⟩ =
        ((rows.map Row.net).take (i + 1)).sum) ∧
    (∀ i (hi : i < (cumsum (rows.map Row.workforce_reinvest)).length),
      (cumsum (rows.map Row.workforce_reinvest)).get ⟨i, hi⟩ =
        ((rows.map Row.workforce_reinvest).take (i + 1)).sum) ∧
    ((∀ r ∈ rows, 0 ≤ r.net) →
      ∀ i j (hi : i < (cumsum (rows.map Row.net)).length)
        (hj : j < (cumsum (rows.map Row.net)).length), i ≤ j →
        (cumsum (rows.map Row.net)).get ⟨i, hi⟩ ≤
          (cumsum (rows.map Row.net)).get ⟨j, hj⟩) ∧
    ((∀ r ∈ rows, 0 ≤ r.workforce_reinvest) →
      ∀ i j (hi : i < (cumsum (rows.map Row.workforce_reinvest)).length)
        (hj : j < (cumsum (rows.map Row.workforce_reinvest)).length), i ≤ j →
        (cumsum (rows.map Row.workforce_reinvest)).get ⟨i, hi⟩ ≤
          (cumsum (rows.map Row.workforce_reinvest)).get ⟨j, hj⟩) := by
  refine ⟨?_, ?_, fun i hi => cumsum_get _ i hi, fun i hi => cumsum_get _ i hi,
    ?_, ?_⟩
  · rw [cumsum_length, List.length_map]
  · rw [cumsum_length, List.length_map]
  · intro hnn i j hi hj hij
    rw [cumsum_get _ i hi, cumsum_get _ j hj]
    refine sum_take_mono _ ?_ (i + 1) (j + 1) (by omega)
    intro x hx
    obtain ⟨r, hr, rfl⟩ := List.mem_map.mp hx
    exact hnn r hr
  · intro hnn i j hi hj hij
    rw [cumsum_get _ i hi, cumsum_get _ j hj]
    refine sum_take_mono _ ?_ (i + 1) (j + 1) (by omega)
    intro x hx
    obtain ⟨r, hr, rfl⟩ := List.mem_map.mp hx
    exact hnn r hr

theorem C8_witness :
    (cumsum ([zeroRow 1, zeroRow 2, zeroRow 3].map Row.net)).length = 3 ∧
    (cumsum ([zeroRow 1, zeroRow 2, zeroRow 3].map Row.net)).get
        ⟨0, by norm_num [cumsum, cumsumFrom, zeroRow]⟩ =
      (([zeroRow 1, zeroRow 2, zeroRow 3].map Row.net).take (0 + 1)).sum ∧
    (cumsum ([zeroRow 1, zeroRow 2, zeroRow 3].map Row.net)).get
        ⟨0, by norm_num [cumsum, cumsumFrom, zeroRow]⟩ ≤
      (cumsum ([zeroRow 1, zeroRow 2, zeroRow 3].map Row.net)).get
        ⟨2, by norm_num [cumsum, cumsumFrom, zeroRow]⟩ :=
  ⟨(C8_cumulative azero 3 0 0 0 0 0 [zeroRow 1, zeroRow 2, zeroRow 3]
      proForma_azero).1,
   (C8_cumulative azero 3 0 0 0 0 0 [zeroRow 1, zeroRow 2, zeroRow 3]
      proForma_azero).2.2.1 0 (by norm_num [cumsum, cumsumFrom, zeroRow]),
   (C8_cumulative azero 3 0 0 0 0 0 [zeroRow 1, zeroRow 2, zeroRow 3]
      proForma_azero).2.2.2.2.1 (by norm_num [zeroRow]) 0 2
     (by norm_num [cumsum, cumsumFrom, zeroRow])
     (by norm_num [cumsum, cumsumFrom, zeroRow]) (by omega)⟩

/-- C10: the projector is total only when `1 + growthSites ≠ 0`.  With
`growthSites = −1` and at least two years, year 2's incremental-capex
expression divides `sites` by `1 + growthSites = 0`, which raises
`ZeroDivisionError` in Python — modelled here as the run returning
`none` — even though the spec declares the engine free of failure modes
and bounds growth rates nowhere below. -/
theorem C10_site_growth_minus_one (a : Assumptions) (years : ℕ)
    (gl gp gc rv : ℚ) (h : 2 ≤ years) :
    proForma a years (-1) gl gp gc rv = none := by
  obtain ⟨n, rfl⟩ : ∃ n, years = n + 1 + 1 := ⟨years - 2, by omega⟩
  unfold proForma
  simp only [proFormaAux]
  rw [mkRowChecked_none (compute a).R a.capex_per_site rv (-1)
    (by norm_num) (1 + 1) (by omega)
    (growIf (-1) gl gp gc (1 + 1) (growIf (-1) gl gp gc 1 (initState a)))]
  cases mkRowChecked (compute a).R a.capex_per_site rv (-1) 1
      (growIf (-1) gl gp gc 1 (initState a)) <;> rfl

theorem C10_witness : proForma defaults 5 (-1) 0 0 0 0 = none :=
  C10_site_growth_minus_one defaults 5 0 0 0 0 (by omega)

end CircularPlatform
